import Mathlib

/-!
Shallow embedding of the core of the `architect_ai` floor-plan editor
(`src/web/src/client/{types,geometry,svgParser}.ts`, `App.tsx`, the plan
generator, and the persistence/load path), together with theorems settling
the specification claims.  Exact numeric code (clamping, grid snapping, the
view transform) is modelled over `ℚ`; the sqrt-based length functions
(`dist`, `setLengthFromA`, built on `Math.hypot`) are modelled over `ℝ`.
-/

namespace Architect

/-- `Pt` from types.ts: a 2-D point in world units. -/
@[ext]
structure Pt where
  x : ℚ
  y : ℚ
deriving DecidableEq

/-- `Wall` from types.ts: a straight segment with two endpoints and an id. -/
structure Wall where
  id : String
  a : Pt
  b : Pt
deriving DecidableEq

/-- `SvgAsset` from types.ts. -/
structure SvgAsset where
  id : String
  name : String
  inner : String
  vbW : ℚ
  vbH : ℚ
  x : ℚ
  y : ℚ
  scale : ℚ
  rotationDeg : ℚ
deriving DecidableEq

/-- `Plan` from types.ts: ordered walls and assets. -/
structure Plan where
  walls : List Wall
  assets : List SvgAsset
deriving DecidableEq

/-- `Selection` from types.ts: a tagged union, `null` modelled as `.none`. -/
inductive Selection where
  | none : Selection
  | wall (id : String) : Selection
  | asset (id : String) : Selection
deriving DecidableEq

/-- `ViewState` from types.ts: camera pan offset and zoom scale. -/
@[ext]
structure ViewState where
  x : ℚ
  y : ℚ
  scale : ℚ
deriving DecidableEq

/-- `clamp` from geometry.ts: `Math.max(lo, Math.min(hi, n))`. -/
def clamp (n lo hi : ℚ) : ℚ := max lo (min hi n)

/-- JavaScript `Math.round`: for finite arguments it computes
`⌊x + 1/2⌋`, i.e. ties are rounded toward positive infinity. -/
def jsRound (q : ℚ) : ℤ := ⌊q + 1 / 2⌋

/-- `snapToGrid` from geometry.ts:
`{ x: Math.round(p.x / grid) * grid, y: Math.round(p.y / grid) * grid }`. -/
def snapToGrid (p : Pt) (grid : ℚ) : Pt :=
  ⟨(jsRound (p.x / grid) : ℚ) * grid, (jsRound (p.y / grid) : ℚ) * grid⟩

/-- The world-to-screen transform applied by the render layer of App.tsx:
the canvas group is `translate(view.x view.y) scale(view.scale)`, so a world
point `p` lands at screen coordinate `p * scale + (view.x, view.y)`. -/
def worldToScreen (view : ViewState) (p : Pt) : Pt :=
  ⟨p.x * view.scale + view.x, p.y * view.scale + view.y⟩

/-- `clientToWorld` from App.tsx (with the pointer position already taken
relative to the svg bounding rectangle):
`{ x: (sx - view.x) / view.scale, y: (sy - view.y) / view.scale }`. -/
def clientToWorld (view : ViewState) (client : Pt) : Pt :=
  ⟨(client.x - view.x) / view.scale, (client.y - view.y) / view.scale⟩

/-- The view computation of `onWheel` from App.tsx: `scaleBy = 1.08`,
`direction = deltaY > 0 ? -1 : 1`,
`newScale = clamp(view.scale * (direction > 0 ? scaleBy : 1/scaleBy), 0.2, 6)`,
`mousePointTo = (pointer - view.pos) / view.scale`,
`newPos = pointer - mousePointTo * newScale`. -/
def onWheel (view : ViewState) (pointer : Pt) (deltaY : ℚ) : ViewState :=
  let scaleBy : ℚ := 1.08
  let direction : ℤ := if deltaY > 0 then -1 else 1
  let newScale := clamp (view.scale * (if direction > 0 then scaleBy else 1 / scaleBy)) 0.2 6
  let mousePointTo : Pt :=
    ⟨(pointer.x - view.x) / view.scale, (pointer.y - view.y) / view.scale⟩
  ⟨pointer.x - mousePointTo.x * newScale, pointer.y - mousePointTo.y * newScale, newScale⟩

/-- Which endpoint of a wall is addressed (`"a" | "b"` in App.tsx). -/
inductive Endpoint where
  | a : Endpoint
  | b : Endpoint
deriving DecidableEq

/-- `updateWallEndpoint` from App.tsx:
`walls: p.walls.map(w => w.id === id ? { ...w, [which]: next } : w)`. -/
def updateWallEndpoint (p : Plan) (id : String) (which : Endpoint) (next : Pt) : Plan :=
  { p with
    walls := p.walls.map fun w =>
      if w.id = id then
        match which with
        | .a => { w with a := next }
        | .b => { w with b := next }
      else w }

/-- `updateAsset` from App.tsx, specialised to the only patch the controller
issues (`{ x, y }`): `assets: p.assets.map(a => a.id === id ? { ...a, ...patch } : a)`. -/
def updateAssetPos (p : Plan) (id : String) (nx ny : ℚ) : Plan :=
  { p with
    assets := p.assets.map fun a =>
      if a.id = id then { a with x := nx, y := ny } else a }

/-- `DragState` from App.tsx: `null` is modelled as `Option.none` around it. -/
inductive Drag where
  | pan (startClient : Pt) (startView : ViewState) : Drag
  | handle (wallId : String) (which : Endpoint) : Drag
  | asset (assetId : String) (startWorld : Pt) (startPos : Pt) : Drag
deriving DecidableEq

/-- The mutable editor state the pointer handlers of App.tsx read and write:
the Plan, the Selection, the ViewState and the drag ref. -/
structure EditorState where
  plan : Plan
  selection : Selection
  view : ViewState
  drag : Option Drag
deriving DecidableEq

/-- The pointer/wheel events the canvas handlers of App.tsx receive.  A
background pointer-down carries the `data-role` of its DOM target (absent
modelled as `Option.none`); asset and handle pointer-downs are separate
events because those elements call `stopPropagation()`. -/
inductive PEvent where
  | downBackground (targetRole : Option String) (client : Pt) : PEvent
  | downAsset (id : String) (client : Pt) : PEvent
  | downHandle (wallId : String) (which : Endpoint) : PEvent
  | move (client : Pt) : PEvent
  | up : PEvent
  | wheel (client : Pt) (deltaY : ℚ) : PEvent
deriving DecidableEq

/-- `GRID = 20` from App.tsx. -/
def GRID : ℚ := 20

/-- One step of the interaction controller of App.tsx: the bodies of
`onPointerDownBackground`, the asset / endpoint-handle `onPointerDown`
closures, `onPointerMove`, `onPointerUp` and `onWheel`, transcribed case by
case.  All of them assign `dragRef.current` unconditionally. -/
def step (s : EditorState) (e : PEvent) : EditorState :=
  match e with
  | .downBackground role client =>
      -- `if (target?.dataset?.role && target.dataset.role !== "background") return;`
      match role with
      | some r => if r ≠ "" ∧ r ≠ "background" then s
          else { s with drag := some (.pan client s.view) }
      | none => { s with drag := some (.pan client s.view) }
  | .downAsset id client =>
      match s.plan.assets.find? (fun a => a.id = id) with
      | some a =>
          { s with
            selection := .asset id
            drag := some (.asset id (clientToWorld s.view client) ⟨a.x, a.y⟩) }
      | none => s
  | .downHandle wallId which =>
      { s with selection := .wall wallId, drag := some (.handle wallId which) }
  | .move client =>
      match s.drag with
      | none => s
      | some (.pan startClient startView) =>
          { s with view :=
              ⟨startView.x + (client.x - startClient.x),
               startView.y + (client.y - startClient.y), startView.scale⟩ }
      | some (.handle wallId which) =>
          let world := clientToWorld s.view client
          { s with plan := updateWallEndpoint s.plan wallId which (snapToGrid world GRID) }
      | some (.asset assetId startWorld startPos) =>
          let world := clientToWorld s.view client
          let next := snapToGrid
            ⟨startPos.x + (world.x - startWorld.x), startPos.y + (world.y - startWorld.y)⟩ GRID
          { s with plan := updateAssetPos s.plan assetId next.x next.y }
  | .up => { s with drag := none }
  | .wheel client deltaY => { s with view := onWheel s.view client deltaY }

/-- The shape the generator expects under the `plan` key of the JSON
response; `walls` may be absent (`data?.plan?.walls` is checked). -/
structure RawGenPlan where
  walls : Option (List Wall)
  assets : List SvgAsset
deriving DecidableEq

/-- The observable outcome of the `fetch` in planGenerator.ts:
`netError` models a rejected `fetch` or a rejected `res.json()`, and
`resp ok body` a settled response with status flag `ok` and decoded body
`body` (`body = none` models a JSON body without a `plan` key). -/
inductive ApiOutcome where
  | netError : ApiOutcome
  | resp (ok : Bool) (body : Option RawGenPlan) : ApiOutcome
deriving DecidableEq

/-- The fixed fallback Plan of `generatePlanFromText` in planGenerator.ts:
four walls forming a rectangle plus the interior partition `w5`, no assets. -/
def fallbackPlan : Plan :=
  { walls :=
      [ ⟨"w1", ⟨120, 120⟩, ⟨720, 120⟩⟩,
        ⟨"w2", ⟨720, 120⟩, ⟨720, 540⟩⟩,
        ⟨"w3", ⟨720, 540⟩, ⟨120, 540⟩⟩,
        ⟨"w4", ⟨120, 540⟩, ⟨120, 120⟩⟩,
        ⟨"w5", ⟨420, 120⟩, ⟨420, 540⟩⟩ ],
    assets := [] }

/-- `generatePlanFromText` from planGenerator.ts, with the network
interaction abstracted into its observable `ApiOutcome`: inside `try`,
`if (!res.ok) throw`; `if (!data?.plan?.walls) throw`; `return data.plan`;
the `catch` arm returns `fallback`.  The `prompt` argument only feeds the
request body. -/
def generatePlanFromText (_prompt : String) (o : ApiOutcome) : Plan :=
  match o with
  | .netError => fallbackPlan
  | .resp ok body =>
      if ok then
        match body with
        | none => fallbackPlan
        | some rp =>
            match rp.walls with
            | none => fallbackPlan
            | some ws => { walls := ws, assets := rp.assets }
      else fallbackPlan

/-- An outcome on which `generatePlanFromText` takes its `catch` arm: the
request rejected, the status was non-success, or the decoded body lacks a
`plan.walls` sequence. -/
def genFails (o : ApiOutcome) : Prop :=
  match o with
  | .netError => True
  | .resp ok body =>
      ok = false ∨ body = none ∨ ∃ rp, body = some rp ∧ rp.walls = none

instance : DecidablePred genFails := fun o => by
  unfold genFails
  cases o with
  | netError => exact inferInstance
  | resp ok body => exact inferInstance

/-- The observable content of a parsed SVG document, as the DOM hands it to
`parseSvgText` in svgParser.ts: whether the parse produced a `parsererror`
node, whether an `svg` element exists, the tokenized `viewBox` attribute
(each token a JS number, `none` marking a non-finite `Number(...)` result),
the `parseFloat` results of the `width`/`height` attributes (`none` marking
an absent attribute or a NaN/non-finite parse), and the element's
`innerHTML` after `<script>` removal. -/
structure SvgDoc where
  parserError : Bool
  hasSvg : Bool
  viewBox : Option (List (Option ℚ))
  widthAttr : Option ℚ
  heightAttr : Option ℚ
  inner : String
deriving DecidableEq

/-- JavaScript `String.prototype.trim()`: strip leading and trailing
whitespace, written over the character list. -/
def jsTrim (s : String) : String :=
  ⟨((s.data.dropWhile Char.isWhitespace).reverse.dropWhile Char.isWhitespace).reverse⟩

/-- The result record of `parseSvgText`. -/
structure ParsedSvg where
  inner : String
  vbW : ℚ
  vbH : ℚ
deriving DecidableEq

/-- The viewBox arm of `parseSvgText`: `vbW, vbH` start at 0 and take
components 3 and 4 when the viewBox tokenizes to exactly 4 finite numbers
(`parts.length === 4 && parts.every(Number.isFinite)`). -/
def viewBoxSize (vb : Option (List (Option ℚ))) : ℚ × ℚ :=
  match vb with
  | some parts =>
      if parts.length = 4 ∧ parts.all (·.isSome) then
        ((parts.getD 2 none).getD 0, (parts.getD 3 none).getD 0)
      else (0, 0)
  | none => (0, 0)

/-- The fallback arm of `parseSvgText`: when the viewBox pair is not
strictly positive, use finite positive `width`/`height` attributes, else
the fixed default `(100, 100)`. -/
def resolveSize (fromVb : ℚ × ℚ) (wAttr hAttr : Option ℚ) : ℚ × ℚ :=
  if ¬ (fromVb.1 > 0 ∧ fromVb.2 > 0) then
    match wAttr, hAttr with
    | some w, some h => if w > 0 ∧ h > 0 then (w, h) else (100, 100)
    | _, _ => (100, 100)
  else fromVb

/-- `parseSvgText` from svgParser.ts: throw on `parsererror`; throw when no
`svg` element; take `vbW, vbH` from viewBox components 3 and 4 when the
viewBox has exactly 4 finite parts; when the pair is not strictly positive,
fall back to finite positive `width`/`height` attributes, else to 100 x 100;
finally throw when the (script-stripped) inner markup is blank. -/
def parseSvgText (doc : SvgDoc) : Except String ParsedSvg :=
  if doc.parserError then .error "Invalid SVG (parsererror)"
  else if ¬ doc.hasSvg then .error "Invalid SVG: missing <svg>"
  else
    let size := resolveSize (viewBoxSize doc.viewBox) doc.widthAttr doc.heightAttr
    if jsTrim doc.inner = "" then .error "SVG has no drawable content"
    else .ok ⟨doc.inner, size.1, size.2⟩

/-- The decoded shape `onLoadFile` in App.tsx reads from the JSON document:
`plan` (with possibly missing `walls`/`assets` keys), optional `view`,
optional `prompt`. -/
structure RawLoadPlan where
  walls : Option (List Wall)
  assets : Option (List SvgAsset)
deriving DecidableEq

/-- A successfully JSON-decoded load document. -/
structure LoadDoc where
  plan : Option RawLoadPlan
  view : Option ViewState
  prompt : Option String
deriving DecidableEq

/-- The document-level state `onLoadFile` replaces: the plan (kept raw, as
JavaScript stores the decoded object verbatim), view, prompt and the
selection it repairs. -/
structure LoadedState where
  plan : RawLoadPlan
  view : ViewState
  prompt : String
  selection : Selection
deriving DecidableEq

/-- The validation and defaulting core of `onLoadFile` in App.tsx:
`JSON.parse` failure is the `none` input; `if (!parsed?.plan) throw`;
otherwise the triple is accepted with `view ?? {x:0,y:0,scale:1}` and
`prompt ?? ""`. -/
def deserialize (input : Option LoadDoc) :
    Except String (RawLoadPlan × ViewState × String) :=
  match input with
  | none => .error "SyntaxError"
  | some d =>
      match d.plan with
      | none => .error "Invalid file"
      | some p => .ok (p, d.view.getD ⟨0, 0, 1⟩, d.prompt.getD "")

/-- `onLoadFile` as a state transformer: on any failure the thrown error
propagates before any `set*` call runs, so the state is unchanged; on
success it stores the decoded plan, the (defaulted) view and prompt, and
repairs the selection from `parsed.plan.walls?.[0]?.id`. -/
def onLoadFile (s : LoadedState) (input : Option LoadDoc) : LoadedState :=
  match deserialize input with
  | .error _ => s
  | .ok (p, v, pr) =>
      { plan := p, view := v, prompt := pr
        selection :=
          match p.walls with
          | some (w :: _) => if w.id ≠ "" then .wall w.id else .none
          | _ => .none }

/-- A point with real coordinates, for the sqrt-based kernel functions
(`Math.hypot` has no rational model). -/
@[ext]
structure RPt where
  x : ℝ
  y : ℝ

/-- `Math.hypot(dx, dy)` on finite inputs: the Euclidean norm. -/
noncomputable def hypot (dx dy : ℝ) : ℝ := Real.sqrt (dx ^ 2 + dy ^ 2)

/-- `dist` from geometry.ts: `Math.hypot(a.x - b.x, a.y - b.y)`. -/
noncomputable def dist (a b : RPt) : ℝ := hypot (a.x - b.x) (a.y - b.y)

/-- `setLengthFromA` from geometry.ts:
`len = Math.hypot(dx, dy) || 1; s = newLen / len;
return { x: a.x + dx * s, y: a.y + dy * s }`.  `hypot` is nonnegative, so
the `|| 1` guard fires exactly when it is zero. -/
noncomputable def setLengthFromA (a b : RPt) (newLen : ℝ) : RPt :=
  let dx := b.x - a.x
  let dy := b.y - a.y
  let len := if hypot dx dy = 0 then 1 else hypot dx dy
  let s := newLen / len
  ⟨a.x + dx * s, a.y + dy * s⟩

/-! ## Helper lemmas -/

theorem jsRound_intCast (k : ℤ) : jsRound (k : ℚ) = k := by
  unfold jsRound
  rw [Int.floor_int_add]
  have : ⌊(1 / 2 : ℚ)⌋ = 0 := by
    rw [Int.floor_eq_zero_iff]
    constructor <;> norm_num
  omega

theorem jsRound_near (q : ℚ) : |(jsRound q : ℚ) - q| ≤ 1 / 2 := by
  unfold jsRound
  have h1 : ((⌊q + 1 / 2⌋ : ℤ) : ℚ) ≤ q + 1 / 2 := Int.floor_le _
  have h2 : q + 1 / 2 - 1 < ((⌊q + 1 / 2⌋ : ℤ) : ℚ) := Int.sub_one_lt_floor _
  rw [abs_le]
  constructor <;> linarith

/-! ## Claim theorems -/

/-- C7: for every Plan and every wallId not present among the Plan's walls,
`updateWallEndpoint` returns the Plan unchanged (value equality). -/
theorem C7_updateWallEndpoint_missing_id_noop (p : Plan) (id : String)
    (which : Endpoint) (next : Pt) (h : ∀ w ∈ p.walls, w.id ≠ id) :
    updateWallEndpoint p id which next = p := by
  unfold updateWallEndpoint
  cases p with
  | mk walls assets =>
    simp only [Plan.mk.injEq, and_true]
    induction walls with
    | nil => rfl
    | cons w ws ih =>
        simp only [List.map_cons, List.cons.injEq]
        constructor
        · rw [if_neg (h w (by simp))]
        · exact ih fun w hw => h w (by simp [hw])

/-- C7 witness: a concrete one-wall Plan and an absent id. -/
theorem C7_updateWallEndpoint_missing_id_noop_witness :
    (∀ w ∈ (Plan.mk [⟨"w1", ⟨0, 0⟩, ⟨1, 1⟩⟩] []).walls, w.id ≠ "nope") ∧
    updateWallEndpoint ⟨[⟨"w1", ⟨0, 0⟩, ⟨1, 1⟩⟩], []⟩ "nope" .a ⟨5, 5⟩ =
      ⟨[⟨"w1", ⟨0, 0⟩, ⟨1, 1⟩⟩], []⟩ :=
  ⟨by decide,
   C7_updateWallEndpoint_missing_id_noop ⟨[⟨"w1", ⟨0, 0⟩, ⟨1, 1⟩⟩], []⟩ "nope" .a ⟨5, 5⟩
     (by decide)⟩

/-- C8 counterexample: the runtime rounding rule is `Math.round`, which sends
`-0.5` to `0`, i.e. ties go toward positive infinity, not away from zero.
Snapping `(-10, -10)` with grid 20 yields `(0, 0)`, while rounding halves
away from zero would demand `(-20, -20)`. -/
theorem C8_counterexample :
    snapToGrid ⟨-10, -10⟩ 20 = ⟨0, 0⟩ ∧ snapToGrid ⟨-10, -10⟩ 20 ≠ ⟨-20, -20⟩ := by
  unfold snapToGrid jsRound
  norm_num [Pt.ext_iff]

/-- C8 (amended): `snapToGrid` rounds each axis independently to the nearest
multiple of the grid with ties toward positive infinity: it is idempotent,
the scenario `(17, 23)` with grid 20 yields `(20, 20)`, each snapped axis is
within half a grid step of the input, and an exact half-step tie snaps to
the greater multiple. -/
theorem C8_snapToGrid_amended :
    (∀ (p : Pt) (g : ℚ), 0 < g → snapToGrid (snapToGrid p g) g = snapToGrid p g) ∧
    snapToGrid ⟨17, 23⟩ 20 = ⟨20, 20⟩ ∧
    (∀ (p : Pt) (g : ℚ), 0 < g →
      |(snapToGrid p g).x - p.x| ≤ g / 2 ∧ |(snapToGrid p g).y - p.y| ≤ g / 2) ∧
    (∀ (k : ℤ) (g : ℚ), 0 < g →
      snapToGrid ⟨(k : ℚ) * g + g / 2, (k : ℚ) * g + g / 2⟩ g =
        ⟨((k : ℚ) + 1) * g, ((k : ℚ) + 1) * g⟩) := by
  refine ⟨?_, ?_, ?_, ?_⟩
  · intro p g hg
    have hx : ((jsRound (p.x / g) : ℚ) * g) / g = ((jsRound (p.x / g) : ℤ) : ℚ) :=
      mul_div_cancel_right₀ _ hg.ne'
    have hy : ((jsRound (p.y / g) : ℚ) * g) / g = ((jsRound (p.y / g) : ℤ) : ℚ) :=
      mul_div_cancel_right₀ _ hg.ne'
    show snapToGrid ⟨_, _⟩ g = _
    simp [snapToGrid, hx, hy, jsRound_intCast]
  · unfold snapToGrid jsRound
    norm_num
  · intro p g hg
    have key : ∀ q : ℚ, |(jsRound q : ℚ) * g - q * g| ≤ g / 2 := by
      intro q
      calc |(jsRound q : ℚ) * g - q * g| = |((jsRound q : ℚ) - q) * g| := by ring_nf
        _ = |(jsRound q : ℚ) - q| * |g| := abs_mul _ _
        _ = |(jsRound q : ℚ) - q| * g := by rw [abs_of_pos hg]
        _ ≤ 1 / 2 * g := mul_le_mul_of_nonneg_right (jsRound_near q) hg.le
        _ = g / 2 := by ring
    constructor
    · have := key (p.x / g)
      rwa [div_mul_cancel₀ _ hg.ne'] at this
    · have := key (p.y / g)
      rwa [div_mul_cancel₀ _ hg.ne'] at this
  · intro k g hg
    have harg : ((k : ℚ) * g + g / 2) / g = (k : ℚ) + 1 / 2 := by
      field_simp
      ring
    have hr : jsRound ((k : ℚ) + 1 / 2) = k + 1 := by
      unfold jsRound
      have : (k : ℚ) + 1 / 2 + 1 / 2 = ((k + 1 : ℤ) : ℚ) := by push_cast; ring
      rw [this, Int.floor_intCast]
    unfold snapToGrid
    rw [harg, hr]
    ext <;> push_cast <;> ring

/-- C8 witness: the amended theorem applied at concrete inputs. -/
theorem C8_snapToGrid_amended_witness :
    snapToGrid (snapToGrid ⟨3, 7⟩ 2) 2 = snapToGrid ⟨3, 7⟩ 2 ∧
    (|(snapToGrid ⟨3, 7⟩ 2).x - 3| ≤ 2 / 2 ∧ |(snapToGrid ⟨3, 7⟩ 2).y - 7| ≤ 2 / 2) ∧
    snapToGrid ⟨((1 : ℤ) : ℚ) * 2 + 2 / 2, ((1 : ℤ) : ℚ) * 2 + 2 / 2⟩ 2 =
      ⟨(((1 : ℤ) : ℚ) + 1) * 2, (((1 : ℤ) : ℚ) + 1) * 2⟩ :=
  ⟨C8_snapToGrid_amended.1 ⟨3, 7⟩ 2 (by norm_num),
   C8_snapToGrid_amended.2.2.1 ⟨3, 7⟩ 2 (by norm_num),
   C8_snapToGrid_amended.2.2.2 1 2 (by norm_num)⟩

/-- C4: whenever the plan-generation request fails in any way (network
error, non-success status, or a body without a `plan.walls` sequence),
`generatePlanFromText` returns the fixed fallback Plan: a four-wall
rectangle plus one interior partition wall and no assets.  The function is
total, so it never throws to the caller. -/
theorem C4_generate_fallback_on_failure (prompt : String) (o : ApiOutcome)
    (h : genFails o) :
    generatePlanFromText prompt o = fallbackPlan ∧
    fallbackPlan.walls.length = 5 ∧ fallbackPlan.assets = [] := by
  refine ⟨?_, rfl, rfl⟩
  cases o with
  | netError => rfl
  | resp ok body =>
      unfold genFails at h
      rcases h with h | h | ⟨rp, hb, hw⟩
      · subst h; rfl
      · subst h; cases ok <;> rfl
      · subst hb
        cases ok
        · rfl
        · simp [generatePlanFromText, hw]

/-- C4 witness: a settled response whose JSON body lacks a `plan` key. -/
theorem C4_generate_fallback_on_failure_witness :
    genFails (ApiOutcome.resp true none) ∧
    generatePlanFromText "a prompt" (ApiOutcome.resp true none) = fallbackPlan ∧
    fallbackPlan.walls.length = 5 ∧ fallbackPlan.assets = [] :=
  ⟨Or.inr (Or.inl rfl),
   C4_generate_fallback_on_failure "a prompt" (ApiOutcome.resp true none)
     (Or.inr (Or.inl rfl))⟩

/-- C3: for every view with scale in the valid range, every pivot and every
wheel delta, the wheel-zoom keeps the world point under the pivot visually
stationary: `worldToScreen(view', screenToWorld(view, pivot)) = pivot`,
exactly (the new position is solved from the already-clamped new scale). -/
theorem C3_wheel_zoom_pivot_stationary (v : ViewState) (pointer : Pt) (deltaY : ℚ)
    (_h1 : 0.2 ≤ v.scale) (_h2 : v.scale ≤ 6) :
    worldToScreen (onWheel v pointer deltaY) (clientToWorld v pointer) = pointer := by
  unfold worldToScreen onWheel clientToWorld
  ext <;> simp

/-- C3 witness: a concrete view, pivot and wheel delta. -/
theorem C3_wheel_zoom_pivot_stationary_witness :
    (0.2 : ℚ) ≤ (ViewState.mk 0 0 1).scale ∧ (ViewState.mk 0 0 1).scale ≤ 6 ∧
    worldToScreen (onWheel ⟨0, 0, 1⟩ ⟨100, 50⟩ (-3)) (clientToWorld ⟨0, 0, 1⟩ ⟨100, 50⟩) =
      ⟨100, 50⟩ :=
  ⟨by norm_num, by norm_num,
   C3_wheel_zoom_pivot_stationary ⟨0, 0, 1⟩ ⟨100, 50⟩ (-3) (by norm_num) (by norm_num)⟩

/-- C2 counterexample: loading a document whose stored view has scale 100
installs that view verbatim — `onLoadFile` never clamps, so the resulting
scale is far outside `[0.2, 6]`. -/
theorem C2_counterexample :
    (onLoadFile ⟨⟨some [], some []⟩, ⟨0, 0, 1⟩, "", .none⟩
        (some ⟨some ⟨some [], some []⟩, some ⟨0, 0, 100⟩, none⟩)).view.scale = 100 ∧
    ¬ ((onLoadFile ⟨⟨some [], some []⟩, ⟨0, 0, 1⟩, "", .none⟩
        (some ⟨some ⟨some [], some []⟩, some ⟨0, 0, 100⟩, none⟩)).view.scale ≤ 6) := by
  constructor
  · rfl
  · show ¬ ((100 : ℚ) ≤ 6)
    norm_num

/-- Unfolding equation exposing the clamped scale of `onWheel`. -/
theorem onWheel_scale (v : ViewState) (pointer : Pt) (deltaY : ℚ) :
    (onWheel v pointer deltaY).scale =
      clamp (v.scale * (if (if deltaY > 0 then (-1 : ℤ) else 1) > 0 then 1.08 else 1 / 1.08))
        0.2 6 := rfl

/-- C2 (amended): the wheel handler clamps the new scale into `[0.2, 6]`
and a pan move reinstates the captured start scale unchanged, but the
document-load path installs the stored view verbatim with no clamp, so a
loaded document can put the scale outside the range. -/
theorem C2_scale_clamp_amended :
    (∀ (v : ViewState) (pointer : Pt) (deltaY : ℚ),
      0.2 ≤ (onWheel v pointer deltaY).scale ∧ (onWheel v pointer deltaY).scale ≤ 6) ∧
    (∀ (s : EditorState) (sc : Pt) (sv : ViewState) (client : Pt),
      s.drag = some (.pan sc sv) → (step s (.move client)).view.scale = sv.scale) ∧
    (∀ (s : LoadedState) (d : LoadDoc) (rp : RawLoadPlan) (v : ViewState),
      d.plan = some rp → d.view = some v → (onLoadFile s (some d)).view = v) := by
  refine ⟨?_, ?_, ?_⟩
  · intro v pointer deltaY
    rw [onWheel_scale]
    unfold clamp
    exact ⟨le_max_left _ _, max_le (by norm_num) (min_le_left _ _)⟩
  · intro s sc sv client h
    simp [step, h]
  · intro s d rp v hp hv
    simp [onLoadFile, deserialize, hp, hv]

/-- C2 witness: the amended theorem applied at concrete inputs. -/
theorem C2_scale_clamp_amended_witness :
    ((0.2 : ℚ) ≤ (onWheel ⟨0, 0, 1⟩ ⟨0, 0⟩ 5).scale ∧ (onWheel ⟨0, 0, 1⟩ ⟨0, 0⟩ 5).scale ≤ 6) ∧
    (step ⟨⟨[], []⟩, .none, ⟨1, 2, 3⟩, some (.pan ⟨4, 5⟩ ⟨6, 7, 2⟩)⟩
        (.move ⟨9, 9⟩)).view.scale = (ViewState.mk 6 7 2).scale ∧
    (onLoadFile ⟨⟨none, none⟩, ⟨0, 0, 1⟩, "", .none⟩
        (some ⟨some ⟨none, none⟩, some ⟨0, 0, 100⟩, none⟩)).view = ⟨0, 0, 100⟩ :=
  ⟨C2_scale_clamp_amended.1 ⟨0, 0, 1⟩ ⟨0, 0⟩ 5,
   C2_scale_clamp_amended.2.1 ⟨⟨[], []⟩, .none, ⟨1, 2, 3⟩, some (.pan ⟨4, 5⟩ ⟨6, 7, 2⟩)⟩
     ⟨4, 5⟩ ⟨6, 7, 2⟩ ⟨9, 9⟩ rfl,
   C2_scale_clamp_amended.2.2 ⟨⟨none, none⟩, ⟨0, 0, 1⟩, "", .none⟩
     ⟨some ⟨none, none⟩, some ⟨0, 0, 100⟩, none⟩ ⟨none, none⟩ ⟨0, 0, 100⟩ rfl rfl⟩

/-- C9 counterexample: with a handle drag active, a background pointer-down
is neither ignored nor a no-op — it replaces the active drag with a fresh
pan drag. -/
theorem C9_counterexample :
    (step ⟨⟨[], []⟩, .none, ⟨0, 0, 1⟩, some (.handle "w1" .a)⟩
        (.downBackground none ⟨5, 5⟩)).drag = some (.pan ⟨5, 5⟩ ⟨0, 0, 1⟩) ∧
    some (Drag.pan ⟨5, 5⟩ ⟨0, 0, 1⟩) ≠ some (Drag.handle "w1" .a) ∧
    some (Drag.pan ⟨5, 5⟩ ⟨0, 0, 1⟩) ≠ (none : Option Drag) := by
  refine ⟨rfl, by decide, by decide⟩

/-- C9 (amended): the drag state is a single cell, so at most one drag is
active at a time, and pointer-up always clears it; but the start-drag
transitions are not guarded on the Idle state: whatever the current drag,
a background or handle pointer-down unconditionally installs a new drag,
and an asset pointer-down does so whenever the asset is present in the
plan (as it always is for a rendered asset), replacing any active drag. -/
theorem C9_drag_replacement_amended :
    (∀ (s : EditorState) (client : Pt),
      (step s (.downBackground none client)).drag = some (.pan client s.view)) ∧
    (∀ (s : EditorState) (wallId : String) (which : Endpoint),
      (step s (.downHandle wallId which)).drag = some (.handle wallId which)) ∧
    (∀ (s : EditorState) (id : String) (client : Pt) (a : SvgAsset),
      s.plan.assets.find? (fun x => x.id = id) = some a →
      (step s (.downAsset id client)).drag =
        some (.asset id (clientToWorld s.view client) ⟨a.x, a.y⟩)) ∧
    (∀ s : EditorState, (step s .up).drag = none) := by
  refine ⟨fun _ _ => rfl, fun _ _ _ => rfl, ?_, fun _ => rfl⟩
  intro s id client a h
  simp [step, h]

/-- C9 witness: with a handle drag active, an asset pointer-down on an
asset present in the plan installs a fresh asset drag. -/
theorem C9_drag_replacement_amended_witness :
    (EditorState.mk ⟨[], [⟨"a1", "TV", "<g />", 10, 5, 140, 140, 1, 0⟩]⟩ .none ⟨0, 0, 1⟩
        (some (.handle "w1" .a))).plan.assets.find? (fun x => x.id = "a1") =
      some ⟨"a1", "TV", "<g />", 10, 5, 140, 140, 1, 0⟩ ∧
    (step ⟨⟨[], [⟨"a1", "TV", "<g />", 10, 5, 140, 140, 1, 0⟩]⟩, .none, ⟨0, 0, 1⟩,
        some (.handle "w1" .a)⟩ (.downAsset "a1" ⟨7, 8⟩)).drag =
      some (.asset "a1" (clientToWorld ⟨0, 0, 1⟩ ⟨7, 8⟩) ⟨140, 140⟩) :=
  ⟨by decide,
   C9_drag_replacement_amended.2.2.1
     ⟨⟨[], [⟨"a1", "TV", "<g />", 10, 5, 140, 140, 1, 0⟩]⟩, .none, ⟨0, 0, 1⟩,
       some (.handle "w1" .a)⟩ "a1" ⟨7, 8⟩ ⟨"a1", "TV", "<g />", 10, 5, 140, 140, 1, 0⟩
     (by decide)⟩

/-- C6 counterexample: a decoded document whose `plan` has no `walls`
sequence is accepted, not rejected — only the presence of `plan` itself is
checked. -/
theorem C6_counterexample :
    deserialize (some ⟨some ⟨none, none⟩, none, none⟩) =
      .ok (⟨none, none⟩, ⟨0, 0, 1⟩, "") ∧
    (RawLoadPlan.mk none none).walls = none :=
  ⟨rfl, rfl⟩

/-- C6 (amended): `deserialize` fails exactly when the text does not decode
to structured data or the decoded value lacks a `plan` field (`plan.walls`
is not checked); on failure the editor state is left unchanged, and on
success a missing `view` defaults to `{x:0, y:0, scale:1}` and a missing
`prompt` defaults to the empty string. -/
theorem C6_deserialize_amended :
    (∀ input : Option LoadDoc,
      (∃ e, deserialize input = .error e) ↔
        input = none ∨ ∃ d, input = some d ∧ d.plan = none) ∧
    (∀ (s : LoadedState) (input : Option LoadDoc) (e : String),
      deserialize input = .error e → onLoadFile s input = s) ∧
    (∀ (d : LoadDoc) (rp : RawLoadPlan),
      d.plan = some rp → d.view = none → d.prompt = none →
        deserialize (some d) = .ok (rp, ⟨0, 0, 1⟩, "")) := by
  refine ⟨?_, ?_, ?_⟩
  · intro input
    constructor
    · rintro ⟨e, he⟩
      cases input with
      | none => exact Or.inl rfl
      | some d =>
          cases hd : d.plan with
          | none => exact Or.inr ⟨d, rfl, hd⟩
          | some p => simp [deserialize, hd] at he
    · rintro (h | ⟨d, hd, hp⟩)
      · subst h
        exact ⟨"SyntaxError", rfl⟩
      · subst hd
        exact ⟨"Invalid file", by simp [deserialize, hp]⟩
  · intro s input e he
    unfold onLoadFile
    rw [he]
  · intro d rp hp hv hpr
    simp [deserialize, hp, hv, hpr]

/-- C6 witness: the amended theorem applied at concrete inputs. -/
theorem C6_deserialize_amended_witness :
    onLoadFile ⟨⟨none, none⟩, ⟨0, 0, 1⟩, "", .none⟩ none =
      ⟨⟨none, none⟩, ⟨0, 0, 1⟩, "", .none⟩ ∧
    deserialize (some ⟨some ⟨some [], none⟩, none, none⟩) =
      .ok (⟨some [], none⟩, ⟨0, 0, 1⟩, "") :=
  ⟨C6_deserialize_amended.2.1 ⟨⟨none, none⟩, ⟨0, 0, 1⟩, "", .none⟩ none "SyntaxError" rfl,
   C6_deserialize_amended.2.2 ⟨some ⟨some [], none⟩, none, none⟩ ⟨some [], none⟩ rfl rfl rfl⟩

/-- The resolved size is strictly positive on both axes, whatever the
viewBox pair and the attributes. -/
theorem resolveSize_pos (vb : ℚ × ℚ) (wa ha : Option ℚ) :
    0 < (resolveSize vb wa ha).1 ∧ 0 < (resolveSize vb wa ha).2 := by
  unfold resolveSize
  by_cases hvb : vb.1 > 0 ∧ vb.2 > 0
  · rw [if_neg (not_not_intro hvb)]
    exact hvb
  · rw [if_pos hvb]
    cases wa with
    | none => cases ha <;> exact ⟨by norm_num, by norm_num⟩
    | some w =>
        cases ha with
        | none => exact ⟨by norm_num, by norm_num⟩
        | some h =>
            dsimp only
            by_cases hwh : w > 0 ∧ h > 0
            · rw [if_pos hwh]
              exact hwh
            · rw [if_neg hwh]
              exact ⟨by norm_num, by norm_num⟩

/-- C5: the importer prefers the viewBox 4-tuple (components 3 and 4 as
width/height), falls back to the width/height attributes when the viewBox
is absent or non-positive, substitutes the fixed 100 x 100 default when
neither yields a positive size (size absence alone never fails), and the
`viewBox="0 0 10 5"` scenario returns `vbW = 10`, `vbH = 5` with non-empty
inner content. -/
theorem C5_parseSvgText_size_preference :
    (∀ (doc : SvgDoc) (t1 t2 w h : ℚ),
      doc.parserError = false → doc.hasSvg = true → jsTrim doc.inner ≠ "" →
      doc.viewBox = some [some t1, some t2, some w, some h] → 0 < w → 0 < h →
      parseSvgText doc = .ok ⟨doc.inner, w, h⟩) ∧
    (∀ (doc : SvgDoc) (t1 t2 w h aw ah : ℚ),
      doc.parserError = false → doc.hasSvg = true → jsTrim doc.inner ≠ "" →
      doc.viewBox = some [some t1, some t2, some w, some h] → ¬ (0 < w ∧ 0 < h) →
      doc.widthAttr = some aw → doc.heightAttr = some ah → 0 < aw → 0 < ah →
      parseSvgText doc = .ok ⟨doc.inner, aw, ah⟩) ∧
    (∀ (doc : SvgDoc) (aw ah : ℚ),
      doc.parserError = false → doc.hasSvg = true → jsTrim doc.inner ≠ "" →
      doc.viewBox = none → doc.widthAttr = some aw → doc.heightAttr = some ah →
      0 < aw → 0 < ah → parseSvgText doc = .ok ⟨doc.inner, aw, ah⟩) ∧
    (∀ doc : SvgDoc,
      doc.parserError = false → doc.hasSvg = true → jsTrim doc.inner ≠ "" →
      doc.viewBox = none → doc.widthAttr = none →
      parseSvgText doc = .ok ⟨doc.inner, 100, 100⟩) ∧
    parseSvgText ⟨false, true, some [some 0, some 0, some 10, some 5], some 68, some 6,
        "<rect width=10 height=5 />"⟩ = .ok ⟨"<rect width=10 height=5 />", 10, 5⟩ ∧
    "<rect width=10 height=5 />" ≠ "" := by
  refine ⟨?_, ?_, ?_, ?_, by rfl, by decide⟩
  · intro doc t1 t2 w h hpe hsvg htrim hvb hw hh
    have hsize : viewBoxSize doc.viewBox = (w, h) := by
      rw [hvb]
      simp [viewBoxSize]
    have hres : resolveSize (w, h) doc.widthAttr doc.heightAttr = (w, h) := by
      unfold resolveSize
      rw [if_neg (not_not_intro ⟨hw, hh⟩)]
    unfold parseSvgText
    rw [hpe, hsvg, hsize, hres]
    simp [htrim]
  · intro doc t1 t2 w h aw ah hpe hsvg htrim hvb hnp hwa hha haw hah
    have hsize : viewBoxSize doc.viewBox = (w, h) := by
      rw [hvb]
      simp [viewBoxSize]
    have hres : resolveSize (w, h) (some aw) (some ah) = (aw, ah) := by
      unfold resolveSize
      rw [if_pos hnp]
      dsimp only
      rw [if_pos ⟨haw, hah⟩]
    unfold parseSvgText
    rw [hpe, hsvg, hsize, hwa, hha, hres]
    simp [htrim]
  · intro doc aw ah hpe hsvg htrim hvb hwa hha haw hah
    have hres : resolveSize (viewBoxSize none) (some aw) (some ah) = (aw, ah) := by
      unfold resolveSize viewBoxSize
      rw [if_pos (by norm_num)]
      dsimp only
      rw [if_pos ⟨haw, hah⟩]
    unfold parseSvgText
    rw [hpe, hsvg, hvb, hwa, hha, hres]
    simp [htrim]
  · intro doc hpe hsvg htrim hvb hwa
    have hres : resolveSize (viewBoxSize none) none doc.heightAttr = (100, 100) := by
      unfold resolveSize viewBoxSize
      rw [if_pos (by norm_num)]
    unfold parseSvgText
    rw [hpe, hsvg, hvb, hwa, hres]
    simp [htrim]

/-- C5 witness: the universally quantified parts applied at concrete
documents. -/
theorem C5_parseSvgText_size_preference_witness :
    parseSvgText ⟨false, true, some [some 0, some 0, some 12, some 7], none, none, "<g />"⟩ =
      .ok ⟨"<g />", 12, 7⟩ ∧
    parseSvgText ⟨false, true, some [some 0, some 0, some 0, some 7], some 3, some 4, "<g />"⟩ =
      .ok ⟨"<g />", 3, 4⟩ ∧
    parseSvgText ⟨false, true, none, some 3, some 4, "<g />"⟩ = .ok ⟨"<g />", 3, 4⟩ ∧
    parseSvgText ⟨false, true, none, none, some 9, "<g />"⟩ = .ok ⟨"<g />", 100, 100⟩ :=
  ⟨C5_parseSvgText_size_preference.1
     ⟨false, true, some [some 0, some 0, some 12, some 7], none, none, "<g />"⟩
     0 0 12 7 rfl rfl (by decide) rfl (by norm_num) (by norm_num),
   C5_parseSvgText_size_preference.2.1
     ⟨false, true, some [some 0, some 0, some 0, some 7], some 3, some 4, "<g />"⟩
     0 0 0 7 3 4 rfl rfl (by decide) rfl (by norm_num) rfl rfl (by norm_num) (by norm_num),
   C5_parseSvgText_size_preference.2.2.1
     ⟨false, true, none, some 3, some 4, "<g />"⟩
     3 4 rfl rfl (by decide) rfl rfl rfl (by norm_num) (by norm_num),
   C5_parseSvgText_size_preference.2.2.2.1
     ⟨false, true, none, none, some 9, "<g />"⟩
     rfl rfl (by decide) rfl rfl⟩

/-- C10: whenever the importer returns successfully, the returned intrinsic
size is strictly positive on both axes, for every input document. -/
theorem C10_parse_success_size_positive (doc : SvgDoc) (r : ParsedSvg)
    (h : parseSvgText doc = .ok r) : 0 < r.vbW ∧ 0 < r.vbH := by
  unfold parseSvgText at h
  dsimp only at h
  split_ifs at h with h1 h2 h3
  rw [Except.ok.injEq] at h
  subst h
  exact resolveSize_pos (viewBoxSize doc.viewBox) doc.widthAttr doc.heightAttr

/-- C10 witness: a document with no size information at all succeeds with
the positive default size. -/
theorem C10_parse_success_size_positive_witness :
    parseSvgText ⟨false, true, none, none, none, "<g />"⟩ = .ok ⟨"<g />", 100, 100⟩ ∧
    0 < (ParsedSvg.mk "<g />" 100 100).vbW ∧ 0 < (ParsedSvg.mk "<g />" 100 100).vbH :=
  ⟨rfl,
   (C10_parse_success_size_positive ⟨false, true, none, none, none, "<g />"⟩
      ⟨"<g />", 100, 100⟩ rfl).1,
   (C10_parse_success_size_positive ⟨false, true, none, none, none, "<g />"⟩
      ⟨"<g />", 100, 100⟩ rfl).2⟩

/-- C1 counterexample: with `a == b` the direction deltas are zero, so the
`|| 1` guard only avoids a division by zero — the function returns `a`
itself, at distance 0, not at distance `newLength = 5` along any fallback
axis. -/
theorem C1_counterexample :
    setLengthFromA ⟨0, 0⟩ ⟨0, 0⟩ 5 = RPt.mk 0 0 ∧
    dist ⟨0, 0⟩ (setLengthFromA ⟨0, 0⟩ ⟨0, 0⟩ 5) = 0 ∧ (0 : ℝ) ≠ 5 := by
  have hs : setLengthFromA ⟨0, 0⟩ ⟨0, 0⟩ 5 = RPt.mk 0 0 := by
    ext <;> simp [setLengthFromA, hypot]
  refine ⟨hs, ?_, by norm_num⟩
  rw [hs]
  simp [dist, hypot]

/-- C1 (amended): for `a ≠ b` and `newLength ≥ 0`, `setLengthFromA`
returns a point colinear with the direction `a→b` (a nonnegative multiple
of `b - a` from `a`) at exactly distance `newLength` from `a`; when
`a == b` the result is defined but equals `a` itself — the `|| 1` guard
prevents a division by zero, it does not substitute a fallback direction. -/
theorem C1_setLengthFromA_amended (a b : RPt) (L : ℝ) (hL : 0 ≤ L) :
    (a ≠ b → dist a (setLengthFromA a b L) = L ∧
      ∃ s : ℝ, 0 ≤ s ∧ (setLengthFromA a b L).x - a.x = s * (b.x - a.x) ∧
        (setLengthFromA a b L).y - a.y = s * (b.y - a.y)) ∧
    (a = b → setLengthFromA a b L = a) := by
  constructor
  · intro hab
    set dx := b.x - a.x with hdx
    set dy := b.y - a.y with hdy
    have hne : ¬ (dx = 0 ∧ dy = 0) := by
      rintro ⟨hx, hy⟩
      apply hab
      ext
      · rw [hdx] at hx
        linarith
      · rw [hdy] at hy
        linarith
    have hsum : 0 < dx ^ 2 + dy ^ 2 := by
      rcases not_and_or.mp hne with h | h
      · have h2 := pow_two_pos_of_ne_zero h
        nlinarith [sq_nonneg dy]
      · have h2 := pow_two_pos_of_ne_zero h
        nlinarith [sq_nonneg dx]
    have hhyp : 0 < hypot dx dy := Real.sqrt_pos.mpr hsum
    have hlen : (if hypot dx dy = 0 then 1 else hypot dx dy) = hypot dx dy := if_neg hhyp.ne'
    have hr : setLengthFromA a b L =
        ⟨a.x + dx * (L / hypot dx dy), a.y + dy * (L / hypot dx dy)⟩ := by
      unfold setLengthFromA
      dsimp only
      rw [hlen]
    set s := L / hypot dx dy with hsdef
    have hs : 0 ≤ s := div_nonneg hL hhyp.le
    rw [hr]
    refine ⟨?_, s, hs, by dsimp only; ring, by dsimp only; ring⟩
    unfold dist hypot
    dsimp only
    have harg : (a.x - (a.x + dx * s)) ^ 2 + (a.y - (a.y + dy * s)) ^ 2
        = s ^ 2 * (dx ^ 2 + dy ^ 2) := by ring
    rw [harg, Real.sqrt_mul (sq_nonneg s), Real.sqrt_sq_eq_abs, abs_of_nonneg hs]
    exact div_mul_cancel₀ L (Real.sqrt_pos.mpr hsum).ne'
  · intro hab
    subst hab
    ext <;> simp [setLengthFromA, hypot]

/-- C1 witness: the amended theorem applied to the 3-4-5 direction with
target length 10. -/
theorem C1_setLengthFromA_amended_witness :
    (0 : ℝ) ≤ 10 ∧ RPt.mk 0 0 ≠ RPt.mk 3 4 ∧
    dist ⟨0, 0⟩ (setLengthFromA ⟨0, 0⟩ ⟨3, 4⟩ 10) = 10 :=
  have hne : RPt.mk 0 0 ≠ RPt.mk 3 4 := fun hc => by
    have hx := congrArg RPt.x hc
    norm_num at hx
  ⟨by norm_num, hne,
   ((C1_setLengthFromA_amended ⟨0, 0⟩ ⟨3, 4⟩ 10 (by norm_num)).1 hne).1⟩

end Architect
